import Mathlib

/-!
Verification of `pyyaul.db.version.Version` (PyYAUL.DB, file
`src/pyyaul/db/version.py`) against its specification.

The Python code compares a declared SQLAlchemy schema (a `MetaData` holding
`Table` objects made of `Column`s) against the live schema reflected from a
database engine, and offers DDL helpers for migration updates.  We embed the
relevant data shallowly:

* a column's SQLAlchemy type is reduced to the attributes the comparator
  reads: the *class* of `type.as_generic()` (a `GenericClass` record: its
  name for the exact-class equality of line 141, and its membership in each
  of the four base categories for the `isinstance` dispatch of lines
  144-156 — `as_generic()` can return subclass generics such as `Text`,
  `BigInteger`, `Unicode` or `Enum`, which are distinct classes yet
  instances of `String` resp. `Integer`), the declared `length` (for string
  types) and the `timezone` flag (for datetime types);
* a `DefaultClause` (the value of `server_default` / `server_onupdate`)
  keeps the two attributes the code reads, `has_argument` and the `str` of
  its `arg`; Python object equality between clauses is modelled as
  structural equality of this record;
* an engine is modelled by its reflection interface: for each schema name,
  the list of live tables of that schema (`MetaData.reflect(engine,
  schema=s)` returns exactly those).

Effectful operations (`matches`' reflection reads, the DDL helpers'
transaction behaviour) are embedded with explicit state passing and logs.
-/

set_option autoImplicit false

namespace PyYAUL

/-- The class of `column.type.as_generic()`.  The comparator uses it two
ways: line 141 compares the exact classes (`type(...) != type(...)`), and
lines 144-156 dispatch with `isinstance` against the four base categories,
which also accepts their subclasses (`Text`, `Unicode`, `Enum` are
instances of `String`; `BigInteger`, `SmallInteger` of `Integer`;
`TIMESTAMP` of `DateTime`).  A class is therefore embedded as its name —
two generic classes are the same exactly when their names are — together
with its membership in each base category. -/
structure GenericClass where
  name : String
  isBoolean : Bool
  isInteger : Bool
  isDateTime : Bool
  isString : Bool
deriving DecidableEq

/-- The attributes of a column's SQLAlchemy type that the comparator reads:
the generic class, `type.length` (meaningful for string types) and
`type.timezone` (meaningful for datetime types). -/
structure ColType where
  generic : GenericClass
  length : Option Nat
  timezone : Bool
deriving DecidableEq

/-- `sqlalchemy.Integer` as a generic class. -/
def IntegerClass : GenericClass := ⟨"Integer", false, true, false, false⟩

/-- `sqlalchemy.BigInteger`: a distinct class, instance of `Integer`. -/
def BigIntegerClass : GenericClass := ⟨"BigInteger", false, true, false, false⟩

/-- `sqlalchemy.String` as a generic class. -/
def StringClass : GenericClass := ⟨"String", false, false, false, true⟩

/-- `sqlalchemy.Text`: a distinct class, instance of `String`. -/
def TextClass : GenericClass := ⟨"Text", false, false, false, true⟩

/-- `sqlalchemy.Boolean` as a generic class. -/
def BooleanClass : GenericClass := ⟨"Boolean", true, false, false, false⟩

/-- `sqlalchemy.types.DateTime` as a generic class. -/
def DateTimeClass : GenericClass := ⟨"DateTime", false, false, true, false⟩

/-- `sqlalchemy.JSON`: a generic class instance of none of the four
categories the comparator recognizes. -/
def JSONClass : GenericClass := ⟨"JSON", false, false, false, false⟩

/-- A `DefaultClause` (`server_default` / `server_onupdate` value), reduced
to the attributes `Version.compareColumns` reads: `has_argument` and the
string rendering of `arg`. -/
structure ServerDefault where
  has_argument : Bool
  arg : String
deriving DecidableEq

/-- A SQLAlchemy `Column`, reduced to the attributes `compareColumns`
reads. -/
structure Col where
  name : String
  primary_key : Bool
  server_default : Option ServerDefault
  server_onupdate : Option ServerDefault
  type : ColType
deriving DecidableEq

/-- A SQLAlchemy `Table`: schema (possibly absent), name, and the ordered
column sequence (`table.columns.values()`). -/
structure Table where
  schema : Option String
  name : String
  columns : List Col
deriving DecidableEq

/-- Lines 124-137 of `compareColumns`: the `server_default` check.  Returns
`true` when the check passes (execution falls through to the next check).
The Python code skips the check entirely for primary-key columns, skips it
when the two clause objects compare equal, and otherwise requires both
clauses to be present with `has_argument` and equal `str(arg)`. -/
def serverDefaultCheck (lhs rhs : Col) : Bool :=
  if lhs.primary_key then true
  else if lhs.server_default == rhs.server_default then true
  else
    match lhs.server_default, rhs.server_default with
    | some l, some r =>
        if l.has_argument && r.has_argument then l.arg == r.arg
        else false
    | _, _ => false

/-- Lines 144-156 of `compareColumns`: after the generic classes have been
found equal, the type-specific refinement, an `isinstance` chain on the
(live) left column's generic class in source order — an instance of
`Boolean` or `Integer` needs nothing further, else an instance of
`DateTime` compares `timezone`, else an instance of `String` compares
`length` (so the subclass generics `Text`, `Unicode`, `Enum`,
`BigInteger`, ... take their base category's branch), and a class that is
an instance of none of the four hits the final `else` branch and fails. -/
def typeRefinementCheck (lhs rhs : Col) : Bool :=
  if lhs.type.generic.isBoolean || lhs.type.generic.isInteger then true
  else if lhs.type.generic.isDateTime then lhs.type.timezone == rhs.type.timezone
  else if lhs.type.generic.isString then lhs.type.length == rhs.type.length
  else false

/-- `Version.compareColumns` (lines 113-157): the checks run in source
order, each returning `False` on mismatch, `True` when all pass.  (The
commented-out `unique` check in the source is omitted, as in the source.) -/
def compareColumns (lhs rhs : Col) : Bool :=
  if lhs.name != rhs.name then false
  else if lhs.primary_key != rhs.primary_key then false
  else if !serverDefaultCheck lhs rhs then false
  else if lhs.server_onupdate != rhs.server_onupdate then false
  else if lhs.type.generic != rhs.type.generic then false
  else typeRefinementCheck lhs rhs

/-- The column loop of `Version.compareTables` (lines 108-110):
`for (l, r) in zip(lhs.columns.values(), rhs.columns.values())`, returning
`False` on the first mismatching pair.  Python's `zip` stops at the shorter
sequence, so trailing columns of the longer side are never examined. -/
def compareColumnsZip : List Col → List Col → Bool
  | l :: ls, r :: rs => compareColumns l r && compareColumnsZip ls rs
  | _, _ => true

/-- `Version.compareTables` (lines 104-111). -/
def compareTables (lhs rhs : Table) : Bool :=
  if lhs.name != rhs.name then false
  else compareColumnsZip lhs.columns rhs.columns

/-! ### `Version.matches` (lines 175-199)

`matches` collects the set of schemas of the declared tables, calls
`engineMetadata.reflect(engine, schema=s)` once per schema, and then walks
the declared tables: a declared table whose key is absent from the
reflected metadata sets the result to `False`; a present one is fetched
(the `Table(..., autoload_with=engine, ...)` constructor returns the
already-reflected table from `engineMetadata`, since its key is already in
`engineMetadata.tables` and no column arguments are passed, so no further
database read happens) and compared with `compareTables(engineTable,
schemaTable)` — live table on the left, declared on the right. -/

/-- The engine, modelled by its reflection interface: for every schema name
(`none` is the default schema), the live tables of that schema that
`MetaData.reflect(engine, schema=s)` returns. -/
def Engine : Type := Option String → List Table

/-- The key under which SQLAlchemy registers a table in `MetaData.tables`
(`schema.name` when a schema is set, else `name`). -/
def tableKey (t : Table) : Option String × String := (t.schema, t.name)

/-- Line 182: `{schemaTable.schema for schemaTable in self.metadata.tables.values()}`,
the set of distinct schemas referenced by the declaration. -/
def declSchemas (decl : List Table) : List (Option String) :=
  (decl.map Table.schema).dedup

/-- Lines 183-184: the contents of `engineMetadata` after one
`reflect(engine, schema=s)` call per distinct declared schema. -/
def reflectAll (decl : List Table) (e : Engine) : List Table :=
  (declSchemas decl).flatMap e

/-- Dictionary lookup in `engineMetadata.tables` by table key. -/
def lookupTable (ts : List Table) (k : Option String × String) : Option Table :=
  ts.find? (fun t => tableKey t == k)

/-- The outcome of one `matches` call together with its observable database
reads: one entry per `reflect` call, in the order issued. -/
structure MatchesRun where
  result : Bool
  reads : List (Option String)
deriving DecidableEq

/-- `Version.matches` (lines 175-199), instrumented with the reflection
reads it issues.  `ret` starts `True` and is set to `False` on any absent
or mismatching declared table; the loop never returns early. -/
def matchesRun (decl : List Table) (e : Engine) : MatchesRun :=
  let schemas := declSchemas decl
  let engineMetadata := schemas.flatMap e
  let result := decl.all fun schemaTable =>
    match lookupTable engineMetadata (tableKey schemaTable) with
    | some engineTable => compareTables engineTable schemaTable
    | none => false
  ⟨result, schemas⟩

/-- The boolean result of `Version.matches`. -/
def matchesVersion (decl : List Table) (e : Engine) : Bool :=
  (matchesRun decl e).result

/-! ### DDL helpers (lines 201-230 and 265-277)

The live database is abstracted as a state of type `σ` together with an
executor `execDDL : String → σ → Except ε σ` that either applies a
statement to the state or fails.  Each helper returns the outcome paired
with the state visible on the connection afterwards. -/

/-- SQLAlchemy `engine.begin()` as used on line 272: run the body inside a
fresh transaction.  On success the transaction commits and the body's state
becomes visible; on failure the transaction rolls back — the visible state
is the initial one — and the failure propagates. -/
def engineBegin {σ ε : Type} (body : σ → Except ε σ) (st : σ) :
    Except ε σ × σ :=
  match body st with
  | .ok st2 => (.ok st2, st2)
  | .error err => (.error err, st)

/-- The ALTER TABLE statement text built on lines 273-277 (whitespace
normalized; Python's f-string renders an absent schema as `None`). -/
def addColumnSQL (table : Table) (columnName columnType : String) : String :=
  "ALTER TABLE " ++ (match table.schema with | some s => s | none => "None")
    ++ "." ++ table.name ++ " ADD COLUMN " ++ columnName ++ " " ++ columnType

/-- The DROP SCHEMA statement text built on lines 215-218. -/
def dropSchemaSQL (schema : String) : String :=
  "DROP SCHEMA IF EXISTS " ++ schema ++ " CASCADE"

/-- The CREATE SCHEMA statement text built on line 225. -/
def createSchemaSQL (schema : String) : String :=
  "CREATE SCHEMA " ++ schema

/-- `Version._updateAddColumn` (lines 265-277): compiles the column's name
and type for the engine's dialect (passed in here as the two strings) and
executes a single ALTER TABLE statement inside `with engine.begin()`. -/
def updateAddColumn {σ ε : Type} (execDDL : String → σ → Except ε σ)
    (table : Table) (columnName columnType : String) (st : σ) :
    Except ε σ × σ :=
  engineBegin (execDDL (addColumnSQL table columnName columnType)) st

/-- `Version.schema_create` (lines 201-230).  The method executes directly
on the caller-supplied `connection`; it opens no transaction of its own and
performs no rollback.  Both `except` clauses end in a re-raise, so any
execution failure propagates (in the source the handler even names
`SQLAlchemyError`, which the module never imports, so the failure would
surface as a `NameError` chained to the original — it propagates either
way); the visible connection state on failure is whatever the statements
already executed left behind. -/
def schemaCreateRun {σ ε : Type} (execDDL : String → σ → Except ε σ)
    (schema : String) (replaceExisting : Bool) (st : σ) :
    Except ε σ × σ :=
  if replaceExisting then
    match execDDL (dropSchemaSQL schema) st with
    | .error err => (.error err, st)
    | .ok st2 =>
        match execDDL (createSchemaSQL schema) st2 with
        | .error err => (.error err, st2)
        | .ok st3 => (.ok st3, st3)
  else
    match execDDL (createSchemaSQL schema) st with
    | .error err => (.error err, st)
    | .ok st2 => (.ok st2, st2)

/-! ### Migration driver

Modelled from the spec: the migration driver (current-version detection and
`migrate`) lives in `pyyaul.base.version.Version`, which is only imported
by `src/pyyaul/db/version.py` and is not under `src/`; the definitions
below follow spec sections 4.3 and 4.4. -/

/-- Modelled from the spec: one node of the version chain — its schema
declaration and its hand-written forward-update procedure, which mutates
the live database and reports the DDL operations it executed. -/
structure VersionNode where
  decl : List Table
  upd : Engine → Engine × List String

/-- Modelled from the spec: the result alternatives of `migrate`
(spec section 6, exit/result semantics). -/
inductive MigrateResult where
  | alreadyCurrent
  | migratedFrom (idx : Nat)
  | unrecognizedDatabase
  | verificationFailed (idx : Nat)
deriving DecidableEq

/-- Modelled from the spec (section 4.3): the chain is listed target first
(index 0) back through predecessors to the root; detection walks from the
target toward the root and returns the index of the first version that
matches, or `none` when none does (the unrecognized-database case). -/
def detectCurrent (chain : List VersionNode) (e : Engine) : Option Nat :=
  chain.findIdx? fun v => matchesVersion v.decl e

/-- Modelled from the spec (section 4.4): apply the update procedures of
the versions strictly after the current one (indices `c-1` down to `0`),
oldest first, accumulating the DDL operations executed. -/
def applyRange (chain : List VersionNode) : Nat → Engine → Engine × List String
  | 0, e => (e, [])
  | c + 1, e =>
      match chain.get? c with
      | some v =>
          let r := v.upd e
          let rest := applyRange chain c r.1
          (rest.1, r.2 ++ rest.2)
      | none => (e, [])

/-- Modelled from the spec (section 4.4): `migrate(target)`.  Detect the
current version; if none matches report the unrecognized database; if the
current version already is the target perform no updates and report
"already at target"; otherwise apply the pending updates oldest to newest
and re-verify the target, distinguishing success from post-migration
verification failure.  The second component is the list of DDL operations
performed. -/
def migrate (chain : List VersionNode) (e : Engine) : MigrateResult × List String :=
  match detectCurrent chain e with
  | none => (MigrateResult.unrecognizedDatabase, [])
  | some 0 => (MigrateResult.alreadyCurrent, [])
  | some (c + 1) =>
      let r := applyRange chain (c + 1) e
      match chain.head? with
      | some tgt =>
          if matchesVersion tgt.decl r.1 then (MigrateResult.migratedFrom (c + 1), r.2)
          else (MigrateResult.verificationFailed (c + 1), r.2)
      | none => (MigrateResult.unrecognizedDatabase, r.2)

/-! ### Concrete test fixtures (the sample schema of the class docstring) -/

/-- `Column('id', Integer, primary_key=True)` from the docstring example. -/
def idCol : Col := ⟨"id", true, none, none, ⟨IntegerClass, none, false⟩⟩

/-- `Column('email', String(100), unique=True)` from the docstring example. -/
def emailCol : Col := ⟨"email", false, none, none, ⟨StringClass, some 100, false⟩⟩

/-- `Column('password', String(100))` from the docstring example. -/
def passwordCol : Col := ⟨"password", false, none, none, ⟨StringClass, some 100, false⟩⟩

/-- The `accounts.user` table of the docstring example (first three
columns). -/
def accountsUser : Table := ⟨some "accounts", "user", [idCol, emailCol, passwordCol]⟩

/-- The same table with the trailing `password` column missing. -/
def accountsUserShort : Table := ⟨some "accounts", "user", [idCol, emailCol]⟩

/-- An engine whose `accounts` schema holds exactly the example table. -/
def liveAccounts : Engine := fun s => if s = some "accounts" then [accountsUser] else []

/-- An unrelated extra live table (not declared anywhere). -/
def junkTable : Table := ⟨some "accounts", "audit_log", []⟩

/-- An engine that reports the unrelated extra table in every schema. -/
def junkEngine : Engine := fun _ => [junkTable]

/-- A column whose generic type class is unrecognized by the comparator. -/
def jsonCol : Col := ⟨"payload", false, none, none, ⟨JSONClass, none, false⟩⟩

/-- A one-node version chain whose sole (target) version declares the
example table; its update procedure does nothing. -/
def v0 : VersionNode := ⟨[accountsUser], fun e2 => (e2, [])⟩

/-- A concrete database executor for the DDL theorems: the state is the
list of existing schemas, DROP SCHEMA on `acme` succeeds and removes it,
and every other statement fails (say, permission denied). -/
def cexExec : String → List String → Except Unit (List String) :=
  fun stmt st =>
    if stmt = dropSchemaSQL "acme" then Except.ok (st.erase "acme")
    else Except.error ()

/-! ### Helper lemmas -/

/-- The column loop equals `all` over the zipped column lists. -/
theorem compareColumnsZip_eq_all (ls rs : List Col) :
    compareColumnsZip ls rs = (ls.zip rs).all fun p => compareColumns p.1 p.2 := by
  induction ls generalizing rs with
  | nil => cases rs <;> rfl
  | cons l ls ih =>
      cases rs with
      | nil => rfl
      | cons r rs => simp [compareColumnsZip, ih]

/-! ### Claim theorems -/

/-- **C1** (counterexample): take the docstring's declared `accounts.user`
table (id, email, password) and a live table carrying only its first two
columns.  Only part of the declared columns have a live counterpart at
their ordinal position — the live table lacks a column at position 2 — yet
`compareTables` is truthy, because the `zip` in the column loop stops at
the shorter side. -/
theorem compareTables_truthy_on_partial_columns :
    compareTables accountsUserShort accountsUser = true ∧
    accountsUserShort.columns.length < accountsUser.columns.length :=
  ⟨by decide, by decide⟩

/-- **C1** (amended): `compareTables` returns `true` iff the table names
are equal and every column pair at a common ordinal position — i.e. up to
the length of the shorter column sequence, as paired by `zip` — compares
equal; columns of the longer side beyond the shorter length are never
examined, so the result can be truthy when one table has columns at
positions the other lacks. -/
theorem compareTables_iff_names_and_zip (lhs rhs : Table) :
    compareTables lhs rhs = true ↔
      lhs.name = rhs.name ∧
        ∀ p ∈ lhs.columns.zip rhs.columns, compareColumns p.1 p.2 = true := by
  unfold compareTables
  by_cases h : lhs.name = rhs.name
  · simp [h, compareColumnsZip_eq_all, List.all_eq_true]
  · simp [h]

/-- **C4**: one `matches` call issues exactly one reflection read per
distinct schema referenced by the declaration — the read log counts every
referenced schema once and any other schema zero times. -/
theorem matchesRun_reads_once_per_schema (decl : List Table) (e : Engine) :
    (matchesRun decl e).reads.Nodup ∧
      ∀ s, s ∈ (matchesRun decl e).reads ↔ s ∈ decl.map Table.schema := by
  constructor
  · exact List.nodup_dedup _
  · intro s
    exact List.mem_dedup

/-- **C7**: comparison failures are reported through the boolean result —
in the embedding `compareColumns` is a total function into `Bool` — and a
live (left) column whose generic type class is an instance of none of the
four recognized categories (Integer/String/Boolean/DateTime, subclasses
included) makes `compareColumns` return `false` through the final `else`
branch, never an exception. -/
theorem compareColumns_unrecognized_false (lhs rhs : Col)
    (h1 : lhs.type.generic.isBoolean = false)
    (h2 : lhs.type.generic.isInteger = false)
    (h3 : lhs.type.generic.isDateTime = false)
    (h4 : lhs.type.generic.isString = false) :
    compareColumns lhs rhs = false := by
  unfold compareColumns
  split_ifs <;> simp [typeRefinementCheck, h1, h2, h3, h4]

/-- Witness for `compareColumns_unrecognized_false`: a live column of
generic class `JSON` — an instance of no recognized category — fails
comparison even against itself. -/
theorem compareColumns_unrecognized_false_witness :
    jsonCol.type.generic.isBoolean = false ∧
    jsonCol.type.generic.isInteger = false ∧
    jsonCol.type.generic.isDateTime = false ∧
    jsonCol.type.generic.isString = false ∧
    compareColumns jsonCol jsonCol = false :=
  ⟨rfl, rfl, rfl, rfl,
    compareColumns_unrecognized_false jsonCol jsonCol rfl rfl rfl rfl⟩

/-- **C2**: `matches` is truthy iff every table of the declaration has a
live table under the same (schema, name) key among the reflected tables,
comparing equal under `compareTables` (live side on the left).  A declared
table entirely absent from the live database falsifies the right-hand side
at that table, so `matches` returns `false` — a mismatch, not an error. -/
theorem matchesVersion_iff_all_declared (decl : List Table) (e : Engine) :
    matchesVersion decl e = true ↔
      ∀ t ∈ decl, ∃ lt, lookupTable (reflectAll decl e) (tableKey t) = some lt ∧
        compareTables lt t = true := by
  have hshow : matchesVersion decl e =
      decl.all (fun schemaTable =>
        match lookupTable (reflectAll decl e) (tableKey schemaTable) with
        | some engineTable => compareTables engineTable schemaTable
        | none => false) := rfl
  rw [hshow, List.all_eq_true]
  constructor
  · intro h t ht
    have h2 := h t ht
    cases hl : lookupTable (reflectAll decl e) (tableKey t) with
    | some lt =>
        rw [hl] at h2
        exact ⟨lt, rfl, h2⟩
    | none =>
        rw [hl] at h2
        exact absurd h2 (by simp)
  · intro h t ht
    obtain ⟨lt, hl, hc⟩ := h t ht
    rw [hl]
    exact hc

/-- The spec's default-expression rule (section 4.1, item 3), stated from
the spec's words: string-normalized comparison of the argument when both
sides carry a literal argument, otherwise exact equality (including both
being absent). -/
def specDefaultsAgree (a b : Option ServerDefault) : Prop :=
  match a, b with
  | some l, some r =>
      if l.has_argument ∧ r.has_argument then l.arg = r.arg else some l = some r
  | x, y => x = y

/-- **C5**: for a non-primary-key (live, left) column, the default check of
`compareColumns` accepts exactly the spec's rule — string comparison of the
arguments when both defaults carry one, exact equality otherwise — and any
disagreement under that rule makes the whole column comparison return
`false`. -/
theorem compareColumns_server_default (lhs rhs : Col)
    (hpk : lhs.primary_key = false) :
    (serverDefaultCheck lhs rhs = true ↔
      specDefaultsAgree lhs.server_default rhs.server_default) ∧
    (¬ specDefaultsAgree lhs.server_default rhs.server_default →
      compareColumns lhs rhs = false) := by
  have main : serverDefaultCheck lhs rhs = true ↔
      specDefaultsAgree lhs.server_default rhs.server_default := by
    unfold serverDefaultCheck specDefaultsAgree
    rw [hpk]
    simp only [Bool.false_eq_true, if_false]
    cases ha : lhs.server_default with
    | none => cases hb : rhs.server_default <;> simp
    | some l =>
        cases hb : rhs.server_default with
        | none => simp
        | some r =>
            by_cases heq : l = r
            · subst heq
              simp
            · have hne : ¬ ((some l == some r) = true) := by simp [heq]
              rw [if_neg hne]
              by_cases hL : l.has_argument = true <;>
                by_cases hR : r.has_argument = true <;>
                  simp [hL, hR, heq]
  refine ⟨main, fun hdis => ?_⟩
  have hfalse : serverDefaultCheck lhs rhs = false :=
    Bool.eq_false_iff.mpr fun hc => hdis (main.mp hc)
  simp [compareColumns, hfalse]

/-- The checks of `compareColumns` shared by every type category
(lines 114-140): name, primary key, server default, server onupdate. -/
def sharedChecks (lhs rhs : Col) : Bool :=
  (lhs.name == rhs.name) && (lhs.primary_key == rhs.primary_key) &&
    serverDefaultCheck lhs rhs && (lhs.server_onupdate == rhs.server_onupdate)

/-- The spec's type-specific refinement (section 4.1, item 6), stated from
the spec's words, with category membership read as the source reads it
(`isinstance`, so subclass generics such as `Text` or `BigInteger` belong
to their base category): a `String`-category column requires equal declared
length, a `DateTime`-category column requires equal timezone-awareness
flag, `Integer`/`Boolean`-category columns require nothing further; a
column of no recognized category never passes. -/
def specRefinement (lhs rhs : Col) : Prop :=
  if lhs.type.generic.isBoolean || lhs.type.generic.isInteger then True
  else if lhs.type.generic.isDateTime then lhs.type.timezone = rhs.type.timezone
  else if lhs.type.generic.isString then lhs.type.length = rhs.type.length
  else False

/-- An early-return check on `!=` equals a conjunct. -/
theorem if_bne_eq_and {α : Type} [BEq α] (x y : α) (rest : Bool) :
    (if (x != y) = true then false else rest) = ((x == y) && rest) := by
  cases h : x == y <;> simp [bne, h]

/-- An early-return check on a negated boolean equals a conjunct. -/
theorem if_not_eq_and (c rest : Bool) :
    (if (!c) = true then false else rest) = (c && rest) := by
  cases c <;> simp

/-- With equal generic type classes, `compareColumns` is the shared checks
conjoined with the type-specific refinement check. -/
theorem compareColumns_eq_shared_and_refinement (lhs rhs : Col)
    (hg : lhs.type.generic = rhs.type.generic) :
    compareColumns lhs rhs = (sharedChecks lhs rhs && typeRefinementCheck lhs rhs) := by
  unfold compareColumns sharedChecks
  rw [if_bne_eq_and, if_bne_eq_and, if_not_eq_and, if_bne_eq_and, if_bne_eq_and]
  rw [beq_iff_eq.mpr hg, Bool.true_and]
  simp [Bool.and_assoc]

/-- The refinement check decides the spec's refinement rule. -/
theorem typeRefinementCheck_iff_spec (lhs rhs : Col) :
    typeRefinementCheck lhs rhs = true ↔ specRefinement lhs rhs := by
  unfold typeRefinementCheck specRefinement
  by_cases h1 : (lhs.type.generic.isBoolean || lhs.type.generic.isInteger) = true <;>
    by_cases h2 : lhs.type.generic.isDateTime = true <;>
      by_cases h3 : lhs.type.generic.isString = true <;>
        simp [h1, h2, h3]

/-- **C6**: when the generic type categories are equal, `compareColumns` is
truthy exactly when the shared attribute checks pass together with the
category's specific refinement: equal declared lengths for `String`, equal
timezone flags for `DateTime`, nothing further for `Integer`/`Boolean`. -/
theorem compareColumns_type_refinement (lhs rhs : Col)
    (hg : lhs.type.generic = rhs.type.generic) :
    compareColumns lhs rhs = true ↔
      sharedChecks lhs rhs = true ∧ specRefinement lhs rhs := by
  rw [compareColumns_eq_shared_and_refinement lhs rhs hg, Bool.and_eq_true,
    typeRefinementCheck_iff_spec]

/-- Witness for `compareColumns_type_refinement` at two concrete string
columns. -/
theorem compareColumns_type_refinement_witness :
    emailCol.type.generic = passwordCol.type.generic ∧
    (compareColumns emailCol passwordCol = true ↔
      sharedChecks emailCol passwordCol = true ∧ specRefinement emailCol passwordCol) :=
  ⟨rfl, compareColumns_type_refinement emailCol passwordCol rfl⟩

/-- Witness for `compareColumns_server_default` at two concrete
non-primary-key columns. -/
theorem compareColumns_server_default_witness :
    emailCol.primary_key = false ∧
    ((serverDefaultCheck emailCol passwordCol = true ↔
        specDefaultsAgree emailCol.server_default passwordCol.server_default) ∧
      (¬ specDefaultsAgree emailCol.server_default passwordCol.server_default →
        compareColumns emailCol passwordCol = false)) :=
  ⟨rfl, compareColumns_server_default emailCol passwordCol rfl⟩

/-- Boolean equality tests are symmetric. -/
theorem beq_symm_eq {α : Type} [BEq α] [LawfulBEq α] (a b : α) :
    (a == b) = (b == a) := by
  by_cases h : a = b
  · subst h; rfl
  · rw [beq_eq_false_iff_ne.mpr h, beq_eq_false_iff_ne.mpr (Ne.symm h)]

/-- Boolean disequality tests are symmetric. -/
theorem bne_symm_eq {α : Type} [BEq α] [LawfulBEq α] (a b : α) :
    (a != b) = (b != a) := by
  simp only [bne, beq_symm_eq a b]

/-- The default check is symmetric once the primary-key flags agree. -/
theorem serverDefaultCheck_symm (a b : Col) (hp : a.primary_key = b.primary_key) :
    serverDefaultCheck a b = serverDefaultCheck b a := by
  unfold serverDefaultCheck
  rw [hp, beq_symm_eq b.server_default a.server_default]
  by_cases hb : b.primary_key = true
  · rw [if_pos hb, if_pos hb]
  · rw [if_neg hb, if_neg hb]
    by_cases hsd : (a.server_default == b.server_default) = true
    · rw [if_pos hsd, if_pos hsd]
    · rw [if_neg hsd, if_neg hsd]
      cases a.server_default with
      | none => cases b.server_default <;> rfl
      | some l =>
          cases b.server_default with
          | none => rfl
          | some r =>
              by_cases hL : l.has_argument = true <;>
                by_cases hR : r.has_argument = true <;>
                  simp [hL, hR, beq_symm_eq l.arg r.arg]

/-- The type refinement is symmetric once the generic classes agree. -/
theorem typeRefinementCheck_symm (a b : Col) (hg : a.type.generic = b.type.generic) :
    typeRefinementCheck a b = typeRefinementCheck b a := by
  unfold typeRefinementCheck
  rw [← hg]
  by_cases h1 : (a.type.generic.isBoolean || a.type.generic.isInteger) = true <;>
    by_cases h2 : a.type.generic.isDateTime = true <;>
      by_cases h3 : a.type.generic.isString = true <;>
        simp [h1, h2, h3, beq_symm_eq a.type.timezone b.type.timezone,
          beq_symm_eq a.type.length b.type.length]

/-- **C8**: the comparator is symmetric — `compareColumns A B` equals
`compareColumns B A` — on all its checks: name, primary key, type class,
length, timezone, and the default-expression comparison, which in
particular handles an absent default on either side by returning a boolean
rather than failing. -/
theorem compareColumns_symm (a b : Col) :
    compareColumns a b = compareColumns b a := by
  unfold compareColumns
  rw [bne_symm_eq b.name a.name, bne_symm_eq b.primary_key a.primary_key,
    bne_symm_eq b.server_onupdate a.server_onupdate,
    bne_symm_eq b.type.generic a.type.generic]
  by_cases hn : (a.name != b.name) = true
  · rw [if_pos hn, if_pos hn]
  · rw [if_neg hn, if_neg hn]
    by_cases hpb : (a.primary_key != b.primary_key) = true
    · rw [if_pos hpb, if_pos hpb]
    · rw [if_neg hpb, if_neg hpb]
      have hp : a.primary_key = b.primary_key :=
        of_not_not fun hne => hpb (bne_iff_ne.mpr hne)
      rw [serverDefaultCheck_symm a b hp]
      by_cases hd : (!serverDefaultCheck b a) = true
      · rw [if_pos hd, if_pos hd]
      · rw [if_neg hd, if_neg hd]
        by_cases hu : (a.server_onupdate != b.server_onupdate) = true
        · rw [if_pos hu, if_pos hu]
        · rw [if_neg hu, if_neg hu]
          by_cases hgb : (a.type.generic != b.type.generic) = true
          · rw [if_pos hgb, if_pos hgb]
          · rw [if_neg hgb, if_neg hgb]
            exact typeRefinementCheck_symm a b
              (of_not_not fun hne => hgb (bne_iff_ne.mpr hne))

/-- A live database `e` together with additional live tables `extra` per
schema: reflection of a schema returns both. -/
def extendEngine (e extra : Engine) : Engine := fun s => e s ++ extra s

/-- Looking a key up in concatenated reflected metadata searches the left
part first. -/
theorem lookupTable_append (ts us : List Table) (k : Option String × String) :
    lookupTable (ts ++ us) k = (lookupTable ts k).or (lookupTable us k) := by
  unfold lookupTable
  exact List.find?_append

/-- Reflection of the extended engine looks up declared keys exactly as the
plain engine does, as long as no extra table carries the key. -/
theorem lookupTable_flatMap_extend (schemas : List (Option String))
    (e extra : Engine) (k : Option String × String)
    (h : ∀ s ∈ schemas, ∀ t ∈ extra s, tableKey t ≠ k) :
    lookupTable (schemas.flatMap (extendEngine e extra)) k =
      lookupTable (schemas.flatMap e) k := by
  induction schemas with
  | nil => rfl
  | cons s ss ih =>
      have hnone : lookupTable (extra s) k = none := by
        apply List.find?_eq_none.mpr
        intro t ht
        simp only [beq_iff_eq]
        exact h s (by simp) t ht
      rw [List.flatMap_cons, List.flatMap_cons]
      show lookupTable ((e s ++ extra s) ++ ss.flatMap (extendEngine e extra)) k = _
      rw [lookupTable_append, lookupTable_append (e s) (extra s), hnone,
        lookupTable_append, ih fun s2 hs2 => h s2 (by simp [hs2])]
      cases lookupTable (e s) k <;> simp

/-- Congruence for `all` under a pointwise-equal predicate. -/
theorem list_all_congr {α : Type} {l : List α} {f g : α → Bool}
    (h : ∀ x ∈ l, f x = g x) : l.all f = l.all g := by
  induction l with
  | nil => rfl
  | cons a l ih =>
      simp only [List.all_cons, h a (by simp)]
      rw [ih fun x hx => h x (by simp [hx])]

/-- **C10**: `matches` examines only the tables named in the declaration —
extending the live database with arbitrarily many extra tables whose
(schema, name) keys are not declared leaves the result unchanged, so extra
live tables are never compared and never cause a mismatch. -/
theorem matchesVersion_ignores_extra_tables (decl : List Table) (e extra : Engine)
    (h : ∀ s, ∀ t ∈ extra s, ∀ d ∈ decl, tableKey t ≠ tableKey d) :
    matchesVersion decl (extendEngine e extra) = matchesVersion decl e := by
  show (matchesRun decl (extendEngine e extra)).result = (matchesRun decl e).result
  unfold matchesRun
  simp only []
  apply list_all_congr
  intro t ht
  rw [lookupTable_flatMap_extend (declSchemas decl) e extra (tableKey t)
    fun s _ u hu => h s u hu t ht]

/-- Witness for `matchesVersion_ignores_extra_tables`: the example
declaration against its live engine, extended with an undeclared
`audit_log` table in every schema. -/
theorem matchesVersion_ignores_extra_tables_witness :
    (∀ s, ∀ t ∈ junkEngine s, ∀ d ∈ [accountsUser], tableKey t ≠ tableKey d) ∧
    matchesVersion [accountsUser] (extendEngine liveAccounts junkEngine) =
      matchesVersion [accountsUser] liveAccounts := by
  have hyp : ∀ s, ∀ t ∈ junkEngine s, ∀ d ∈ [accountsUser], tableKey t ≠ tableKey d := by
    intro s t ht d hd
    simp only [junkEngine, List.mem_singleton] at ht
    simp only [List.mem_singleton] at hd
    subst ht
    subst hd
    decide
  exact ⟨hyp, matchesVersion_ignores_extra_tables [accountsUser] liveAccounts junkEngine hyp⟩

/-- **C3** (counterexample): run `schema_create` with `replaceExisting` on
a connection where the DROP SCHEMA succeeds and the CREATE SCHEMA fails.
The failure propagates, but the visible connection state still shows the
schema dropped: a partial effect of the failed operation remains, because
`schema_create` opens no transaction of its own and rolls nothing back. -/
theorem schemaCreate_partial_effect_visible :
    schemaCreateRun cexExec "acme" true ["acme"] = (Except.error (), []) ∧
    (["acme"] : List String) ≠ ([] : List String) :=
  ⟨rfl, by decide⟩

/-- **C3** (amended): `_updateAddColumn` executes its single ALTER TABLE
inside `engine.begin()`, so a failing execution rolls the transaction back
— the visible state is the initial one, no partial column addition remains
— and the failure propagates to the caller.  `schema_create`, by contrast,
executes directly on the caller's connection without an operation-bound
transaction: its failures propagate, but statements it already executed
(the DROP of `replaceExisting` mode) stay visible on the connection. -/
theorem ddl_transaction_semantics {σ ε : Type} (execDDL : String → σ → Except ε σ)
    (table : Table) (columnName columnType : String) (schema : String)
    (st st2 : σ) (err : ε) :
    (execDDL (addColumnSQL table columnName columnType) st = Except.error err →
      updateAddColumn execDDL table columnName columnType st = (Except.error err, st)) ∧
    (execDDL (dropSchemaSQL schema) st = Except.ok st2 →
      execDDL (createSchemaSQL schema) st2 = Except.error err →
      schemaCreateRun execDDL schema true st = (Except.error err, st2)) := by
  constructor
  · intro h
    unfold updateAddColumn engineBegin
    rw [h]
  · intro h1 h2
    simp [schemaCreateRun, h1, h2]

/-- Witness for `ddl_transaction_semantics` on the concrete executor: a
failing ALTER leaves the engine state untouched, while the failing CREATE
after a successful DROP leaves the dropped schema gone. -/
theorem ddl_transaction_semantics_witness :
    cexExec (addColumnSQL accountsUser "displayname" "VARCHAR(1000)") ["acme"]
        = Except.error () ∧
    updateAddColumn cexExec accountsUser "displayname" "VARCHAR(1000)" ["acme"]
        = (Except.error (), ["acme"]) ∧
    cexExec (dropSchemaSQL "acme") ["acme"] = Except.ok [] ∧
    cexExec (createSchemaSQL "acme") [] = Except.error () ∧
    schemaCreateRun cexExec "acme" true ["acme"] = (Except.error (), []) := by
  refine ⟨rfl, ?_, rfl, rfl, ?_⟩
  · exact (ddl_transaction_semantics cexExec accountsUser "displayname"
      "VARCHAR(1000)" "acme" ["acme"] [] ()).1 rfl
  · exact (ddl_transaction_semantics cexExec accountsUser "displayname"
      "VARCHAR(1000)" "acme" ["acme"] [] ()).2 rfl rfl

/-- **C9** (spec-modelled): when detection finds the live database already
at the target — the first chain entry, index 0, matches — `migrate`
performs zero DDL operations (its DDL log is empty) and reports "already
at target". -/
theorem migrate_already_at_target (chain : List VersionNode) (e : Engine)
    (h : detectCurrent chain e = some 0) :
    migrate chain e = (MigrateResult.alreadyCurrent, []) := by
  unfold migrate
  rw [h]

/-- Witness for `migrate_already_at_target`: a one-version chain whose
target matches the live engine. -/
theorem migrate_already_at_target_witness :
    detectCurrent [v0] liveAccounts = some 0 ∧
    migrate [v0] liveAccounts = (MigrateResult.alreadyCurrent, []) :=
  ⟨by decide, migrate_already_at_target [v0] liveAccounts (by decide)⟩

end PyYAUL
